import Mathlib

/-!
Verification development for the SMTP-AI-Agent daily-digest scripts
(src/main.py, src/app.py, src/app/api/index.py).

The pipeline fetches news, weather (primary provider with a secondary
fallback) and to-do tasks, classifies tasks into today/tomorrow buckets,
and emails a rendered digest.  Network responses are modelled as explicit
datatypes; a Python function that may raise but catches every exception
internally becomes a total Lean function; floating point weather values
are modelled over the rationals; calendar dates are modelled as integer
day numbers (the source parses ISO dates and only ever compares them and
adds whole days).
-/

namespace DailyDigest

/-! ## News source (main.py lines 25-48) -/

/-- Record of the news provider data array; each field is optional because
fetch_news_async reads them with dict.get and a default (main.py line 42). -/
structure NewsItem where
  title : Option String
  description : Option String
  url : Option String
  deriving DecidableEq, Repr

/-- Outcome of the news HTTP request as observed by fetch_news_async: a JSON
body carrying a data array, a JSON body without one, or a raised exception
(network or parse failure) captured by the except block (main.py line 46). -/
inductive NewsResponse where
  | ok (data : List NewsItem)
  | noData
  | fetchError
  deriving DecidableEq, Repr

/-- Line built for one news record (main.py line 42): a missing title,
description or url falls back to the dict.get default. -/
def newsItemLine (item : NewsItem) : String :=
  "Title: " ++ item.title.getD "No title" ++ "\nDescription: " ++
    item.description.getD "No description" ++ "\nURL: " ++ item.url.getD "No URL"

/-- Article lines produced by fetch_news_async, one per record of the
provider data array (main.py lines 40-44).  The configured limit 3 is only a
request parameter (line 35); this loop performs no client-side truncation. -/
def newsArticles (resp : NewsResponse) : List String :=
  match resp with
  | .ok data => data.map newsItemLine
  | .noData => []
  | .fetchError => []

/-- Value of the limit request parameter sent to the news provider
(main.py line 35). -/
def news_limit : Nat := 3

/-- Result string of fetch_news_async (main.py lines 25-48): the joined
article lines, or the no-data / error sentinel strings. -/
def fetch_news_async (resp : NewsResponse) : String :=
  match resp with
  | .ok data => String.intercalate "\n\n" (data.map newsItemLine)
  | .noData => "No news found."
  | .fetchError => "Error fetching news."

/-! ## String scanning helpers for the send_email news re-parsing
(main.py lines 316-320).  Python str.split on a substring and the in
operator are modelled structurally over character lists so that they
compute by kernel reduction. -/

/-- Whether the first list is an initial segment of the second. -/
def leadsList : List Char → List Char → Bool
  | [], _ => true
  | _ :: _, [] => false
  | a :: as, b :: bs => a = b && leadsList as bs

/-- Substring containment, the Python in operator on strings. -/
def containsSubList (pat : List Char) : List Char → Bool
  | [] => leadsList pat []
  | c :: rest => leadsList pat (c :: rest) || containsSubList pat rest

/-- Splitting at the first occurrence of pat: the text before it and the
text after it, or none when pat does not occur. -/
def splitFirst (pat : List Char) : List Char → Option (List Char × List Char)
  | [] => if leadsList pat [] then some ([], []) else none
  | c :: rest =>
    if leadsList pat (c :: rest) then some ([], (c :: rest).drop pat.length)
    else
      match splitFirst pat rest with
      | some (pre, post) => some (c :: pre, post)
      | none => none

/-- Text before the first occurrence of pat, or the whole text when pat does
not occur: Python split(pat)[0]. -/
def beforeFirst (pat s : List Char) : List Char :=
  match splitFirst pat s with
  | some (pre, _) => pre
  | none => s

/-- Text after the first occurrence of pat, empty when pat does not occur. -/
def afterFirst (pat s : List Char) : List Char :=
  match splitFirst pat s with
  | some (_, post) => post
  | none => []

/-- Python item.split(pat)[1]: the segment between the first and second
occurrence of pat (the rest of the string when pat occurs only once). -/
def segmentAfter (pat s : List Char) : List Char :=
  beforeFirst pat (afterFirst pat s)

/-- Title recovered by send_email from one news line (main.py line 318). -/
def parse_title (item : String) : String :=
  if containsSubList "Title: ".toList item.toList then
    String.mk (beforeFirst "\n".toList (segmentAfter "Title: ".toList item.toList))
  else "No title"

/-- Description recovered by send_email from one news line (main.py line 319). -/
def parse_description (item : String) : String :=
  if containsSubList "Description: ".toList item.toList then
    String.mk (beforeFirst "\n".toList (segmentAfter "Description: ".toList item.toList))
  else "No description"

/-- Url recovered by send_email from one news line (main.py line 320); the
hash sign default applies only when the URL marker is absent from the line. -/
def parse_url (item : String) : String :=
  if containsSubList "URL: ".toList item.toList then
    String.mk (segmentAfter "URL: ".toList item.toList)
  else "#"

/-! ## Weather source chain (main.py lines 50-132) -/

/-- Nested condition object of the primary provider payload. -/
structure WeatherApiCondition where
  text : String
  deriving DecidableEq, Repr

/-- Current block of the primary provider payload (main.py lines 69-76). -/
structure WeatherApiCurrent where
  temp_c : ℚ
  condition : WeatherApiCondition
  humidity : ℤ
  wind_kph : ℚ
  feelslike_c : ℚ
  last_updated : String
  deriving DecidableEq, Repr

/-- Location block of the primary provider payload (main.py lines 65-68). -/
structure WeatherApiLocation where
  name : String
  country : String
  deriving DecidableEq, Repr

/-- Outcome of the primary provider HTTP call: a status code with a body
(payload none models a truthy-failing body or one without the current key,
main.py line 60), or a raised transport error / timeout. -/
inductive WeatherApiResponse where
  | ok (status : Nat) (payload : Option (WeatherApiLocation × WeatherApiCurrent))
  | transportError
  deriving DecidableEq, Repr

/-- Nested weather object of the secondary provider record. -/
structure WeatherbitWeather where
  description : String
  deriving DecidableEq, Repr

/-- One record of the secondary provider data array (main.py lines 96-107). -/
structure WeatherbitData where
  city_name : String
  country_code : String
  temp : ℚ
  weather : WeatherbitWeather
  rh : ℤ
  wind_spd : ℚ
  app_temp : ℚ
  ob_time : String
  deriving DecidableEq, Repr

/-- Outcome of the secondary provider HTTP call: a status code with an
optional data array (none models a body without the data key; the empty
list is falsy and also rejected, main.py line 92), or a transport error. -/
inductive WeatherbitResponse where
  | ok (status : Nat) (data : Option (List WeatherbitData))
  | transportError
  deriving DecidableEq, Repr

/-- Location part of the normalized weather dictionary. -/
structure WeatherLocation where
  city : String
  country : String
  deriving DecidableEq, Repr

/-- Current part of the normalized weather dictionary. -/
structure WeatherCurrent where
  temp_c : ℚ
  condition : String
  humidity : ℤ
  wind_kph : ℚ
  feels_like : ℚ
  last_updated : String
  deriving DecidableEq, Repr

/-- Normalized weather dictionary shared by both providers
(main.py lines 63-77 and 94-108). -/
structure WeatherResult where
  source : String
  location : WeatherLocation
  current : WeatherCurrent
  deriving DecidableEq, Repr

/-- Primary adapter fetch_weather_from_weatherapi (main.py lines 51-81):
non-200 status and schema mismatch raise, every exception is caught and
turned into None. -/
def fetch_weather_from_weatherapi (resp : WeatherApiResponse) : Option WeatherResult :=
  match resp with
  | .transportError => none
  | .ok status payload =>
    if status ≠ 200 then none
    else
      match payload with
      | some (location, current) =>
        some ⟨"WeatherAPI.com", ⟨location.name, location.country⟩,
          ⟨current.temp_c, current.condition.text, current.humidity,
            current.wind_kph, current.feelslike_c, current.last_updated⟩⟩
      | none => none

/-- Secondary adapter fetch_weather_from_weatherbit (main.py lines 83-112):
wind speed arrives in m/s and is converted to km/h by multiplying with 3.6
(line 104); every exception is caught and turned into None. -/
def fetch_weather_from_weatherbit (resp : WeatherbitResponse) : Option WeatherResult :=
  match resp with
  | .transportError => none
  | .ok status data =>
    if status ≠ 200 then none
    else
      match data with
      | some (d :: _) =>
        some ⟨"Weatherbit", ⟨d.city_name, d.country_code⟩,
          ⟨d.temp, d.weather.description, d.rh, d.wind_spd * 3.6,
            d.app_temp, d.ob_time⟩⟩
      | some [] => none
      | none => none

/-- Result of the weather chain: the normalized dictionary or the explicit
error dictionary built at main.py lines 129-132. -/
inductive WeatherOutcome where
  | report (r : WeatherResult)
  | unavailable (message : String)
  deriving DecidableEq, Repr

/-- Trace of one run of the weather chain: the returned value together with
how many times each provider was invoked. -/
structure WeatherFetchTrace where
  result : WeatherOutcome
  primaryCalls : Nat
  secondaryCalls : Nat
  deriving DecidableEq, Repr

/-- Fallback chain fetch_weather_async (main.py lines 115-132): the primary
provider is called once; only when it yields None is the secondary called
once; when both yield None the explicit unavailable dictionary is returned.
The function is total: no exception reaches the caller. -/
def fetch_weather_async (primary : WeatherApiResponse)
    (secondary : WeatherbitResponse) : WeatherFetchTrace :=
  match fetch_weather_from_weatherapi primary with
  | some r => ⟨.report r, 1, 0⟩
  | none =>
    match fetch_weather_from_weatherbit secondary with
    | some r => ⟨.report r, 1, 1⟩
    | none => ⟨.unavailable "Weather information is unavailable from all sources.", 1, 1⟩

/-- Failure of the primary provider call as the source observes it: raised
transport error or timeout, non-success status, or a body without the
expected schema (main.py lines 56-60 and 78). -/
def primaryFailure : WeatherApiResponse → Prop
  | .transportError => True
  | .ok status payload => status ≠ 200 ∨ payload = none

/-- Failure of the secondary provider call: raised transport error, non-
success status, or a body whose data array is missing or empty
(main.py lines 88-92 and 109). -/
def secondaryFailure : WeatherbitResponse → Prop
  | .transportError => True
  | .ok status data => status ≠ 200 ∨ data = none ∨ data = some []

/-! ## Task source (main.py lines 135-143 and app.py lines 64-74) -/

/-- Normalized task record: the content text and the parsed due date as an
absolute day number; none when the provider reports no due date
(send_email reads task.due.date when task.due is truthy, main.py line 337). -/
structure Task where
  content : String
  due : Option ℤ
  deriving DecidableEq, Repr

/-- Outcome of the task provider call: the task records, or any raised
exception (auth failure, network failure, malformed response). -/
inductive TasksResponse where
  | ok (tasks : List Task)
  | error (msg : String)
  deriving DecidableEq, Repr

/-- get_tasks of main.py (lines 135-143): the full normalized list on
success (to_dict of each record), the empty list on any exception; total,
never partial. -/
def get_tasks (resp : TasksResponse) : List Task :=
  match resp with
  | .ok tasks => tasks
  | .error _ => []

/-- get_tasks of app.py (lines 64-74): a message string rather than a
sequence; on any exception the fixed failure message is returned. -/
def app_get_tasks (resp : TasksResponse) : String :=
  match resp with
  | .ok tasks =>
    if tasks.isEmpty then "No open tasks."
    else "Here are your open tasks: " ++ String.intercalate ", " (tasks.map (fun t => t.content))
  | .error _ => "Could not fetch tasks."

/-! ## Task classification inside send_email (main.py lines 329-347) -/

/-- Loop body of the classification for-loop: a task with no due date is
skipped; then the chain drops past-due dates, drops dates after
day-after-tomorrow, buckets dates equal to today, buckets dates equal to
tomorrow, and lets the remaining date (exactly today plus two) fall
through unbucketed. -/
def classify_step (today : ℤ) (acc : List Task × List Task) (task : Task) :
    List Task × List Task :=
  match task.due with
  | none => acc
  | some d =>
    if d < today then acc
    else if d > today + 2 then acc
    else if d = today then (acc.1 ++ [task], acc.2)
    else if d = today + 1 then (acc.1, acc.2 ++ [task])
    else acc

/-- Bucket computation of send_email (main.py lines 329-347): the for-loop
appends each task to at most one of today_tasks and tomorrow_tasks. -/
def classify_tasks (tasks : List Task) (today : ℤ) : List Task × List Task :=
  tasks.foldl (classify_step today) ([], [])

/-! ## send_email and the digest (main.py lines 308-528, 530-566) -/

/-- Outcome of the SMTP session at main.py lines 518-521 when reached. -/
inductive SmtpOutcome where
  | sent
  | smtpError (msg : String)
  deriving DecidableEq, Repr

/-- Status string returned by send_email (main.py lines 308-528).  The body
first builds news_content and the task buckets, which always succeeds; the
html_template literal is bound inside the tomorrow-tasks branch (lines
369-380 put the assignment under the if at line 369), so when the tomorrow
bucket is empty the format call at line 505 raises an unbound-local error,
which the generic handler at line 526 turns into the unexpected-error
status.  Otherwise the SMTP session decides between the success string of
line 522 and the SMTPException message of line 525. -/
def send_email (news : String) (tasks : List Task) (today : ℤ)
    (smtp : SmtpOutcome) : String :=
  let _news_content := (news.splitOn "\n\n").map
    (fun item => (parse_title item, parse_description item, parse_url item))
  let buckets := classify_tasks tasks today
  if buckets.2.isEmpty then
    "An unexpected error occurred: local variable html_template referenced before assignment"
  else
    match smtp with
    | .sent => "Email sent successfully."
    | .smtpError e => "Failed to send email: " ++ e

/-- Aggregate digest model of one run: articles block, weather variant and
the two task buckets (spec data model; assembled by main at lines 530-566
with the buckets computed inside send_email at lines 329-347). -/
structure Digest where
  newsContent : String
  weather : WeatherOutcome
  tasksToday : List Task
  tasksTomorrow : List Task
  deriving DecidableEq, Repr

/-- Digest assembled by one run of main: tasks via get_tasks, news via
fetch_news_async, weather via the fallback chain, buckets via the
send_email classification. -/
def buildDigest (tasksResp : TasksResponse) (newsResp : NewsResponse)
    (primary : WeatherApiResponse) (secondary : WeatherbitResponse)
    (today : ℤ) : Digest :=
  let tasks := get_tasks tasksResp
  let buckets := classify_tasks tasks today
  ⟨fetch_news_async newsResp, (fetch_weather_async primary secondary).result,
    buckets.1, buckets.2⟩

/-! ## Run structure of main (main.py lines 530-566) -/

/-- Alphabet of externally visible steps of one run.  configAbort is in the
alphabet so that fail-fast behaviour can be stated; the code never emits
it. -/
inductive RunStep where
  | taskFetch
  | newsFetch
  | weatherPrimaryFetch
  | weatherSecondaryFetch
  | emailSend
  | configAbort
  deriving DecidableEq, Repr

/-- Configuration read by main via os.getenv (main.py lines 533-538); every
field is optional because getenv returns None for an absent variable. -/
structure Config where
  news_api_key : Option String
  todoist_api_key : Option String
  weatherapi_key : Option String
  weatherbit_key : Option String
  email_sender : Option String
  email_password : Option String
  deriving DecidableEq, Repr

/-- Network steps performed by main in order (main.py lines 542-566): the
configuration is read without any validation and the run proceeds directly
to the task fetch, the news fetch and the weather chain (the secondary
call happens exactly when the primary adapter yields None), and finally
the SMTP send.  No step depends on any configuration field being
present. -/
def main_steps (cfg : Config) (primary : WeatherApiResponse) : List RunStep :=
  [RunStep.taskFetch, RunStep.newsFetch, RunStep.weatherPrimaryFetch] ++
    (match fetch_weather_from_weatherapi primary with
     | some _ => []
     | none => [RunStep.weatherSecondaryFetch]) ++
    [RunStep.emailSend]

/-! ## Scheduling model of fetch_updates (main.py lines 146-149) -/

/-- Half-open interval of abstract time units occupied by one awaited
fetch. -/
structure Span where
  start : ℕ
  stop : ℕ
  deriving DecidableEq, Repr

/-- Two spans overlap in time. -/
def Span.overlapsWith (a b : Span) : Prop :=
  a.start < b.stop ∧ b.start < a.stop

instance (a b : Span) : Decidable (a.overlapsWith b) :=
  inferInstanceAs (Decidable (_ ∧ _))

/-- Execution schedule of fetch_updates: its body awaits fetch_news_async
to completion and only then awaits fetch_weather_async (main.py lines
147-148; no gather or task group), so with latencies n and w the news
fetch occupies the span from 0 to n and the weather fetch the span from n
to n plus w. -/
def fetch_updates_schedule (n w : ℕ) : Span × Span :=
  (⟨0, n⟩, ⟨n, n + w⟩)

/-- Combined latency of fetch_updates: completion time of the weather
fetch in the sequential schedule. -/
def fetch_updates_latency (n w : ℕ) : ℕ :=
  ((fetch_updates_schedule n w).2).stop

/-! ## Helper lemmas -/

/-- When the primary provider call fails in any of the source-visible ways,
the primary adapter yields None. -/
lemma primaryFailure_none (p : WeatherApiResponse) (hp : primaryFailure p) :
    fetch_weather_from_weatherapi p = none := by
  cases p with
  | transportError => rfl
  | ok status payload =>
    simp only [primaryFailure] at hp
    rcases hp with h | h
    · simp [fetch_weather_from_weatherapi, h]
    · subst h
      simp [fetch_weather_from_weatherapi]

/-- When the secondary provider call fails in any of the source-visible
ways, the secondary adapter yields None. -/
lemma secondaryFailure_none (s : WeatherbitResponse) (hs : secondaryFailure s) :
    fetch_weather_from_weatherbit s = none := by
  cases s with
  | transportError => rfl
  | ok status data =>
    simp only [secondaryFailure] at hs
    rcases hs with h | h | h
    · simp [fetch_weather_from_weatherbit, h]
    · subst h
      simp [fetch_weather_from_weatherbit]
    · subst h
      simp [fetch_weather_from_weatherbit]

/-- The if-elif chain of the loop body acts independently on the two
buckets: the today bucket grows exactly when the due date equals today and
the tomorrow bucket exactly when it equals tomorrow. -/
lemma classify_step_eq (today : ℤ) (acc : List Task × List Task) (t : Task) :
    classify_step today acc t =
      ((if t.due = some today then acc.1 ++ [t] else acc.1),
       (if t.due = some (today + 1) then acc.2 ++ [t] else acc.2)) := by
  obtain ⟨c, due⟩ := t
  cases due with
  | none => simp [classify_step]
  | some d =>
    simp only [classify_step, Option.some.injEq]
    by_cases h2 : d < today
    · rw [if_pos h2, if_neg (by omega : ¬ d = today),
        if_neg (by omega : ¬ d = today + 1)]
    · rw [if_neg h2]
      by_cases h3 : d > today + 2
      · rw [if_pos h3, if_neg (by omega : ¬ d = today),
          if_neg (by omega : ¬ d = today + 1)]
      · rw [if_neg h3]
        by_cases h0 : d = today
        · subst h0
          rw [if_pos rfl, if_pos rfl, if_neg (by omega : ¬ d = d + 1)]
        · rw [if_neg h0, if_neg h0]
          by_cases h1 : d = today + 1
          · subst h1
            rw [if_pos rfl, if_pos rfl]
          · rw [if_neg h1, if_neg h1]

/-- The classification loop, started from any accumulator, appends exactly
the tasks due today to the first bucket and exactly the tasks due tomorrow
to the second. -/
lemma classify_foldl_eq (today : ℤ) (tasks : List Task)
    (acc : List Task × List Task) :
    tasks.foldl (classify_step today) acc =
      (acc.1 ++ tasks.filter (fun t => decide (t.due = some today)),
       acc.2 ++ tasks.filter (fun t => decide (t.due = some (today + 1)))) := by
  induction tasks generalizing acc with
  | nil => simp
  | cons t ts ih =>
    rw [List.foldl_cons, ih, classify_step_eq]
    by_cases h0 : t.due = some today
    · have h1 : ¬ t.due = some (today + 1) := by
        rw [h0]
        intro e
        injection e with e
        omega
      simp [List.filter_cons, h0, h1, List.append_assoc]
    · by_cases h1 : t.due = some (today + 1)
      · simp [List.filter_cons, h0, h1, List.append_assoc]
      · simp [List.filter_cons, h0, h1]

/-- The send_email classification equals a pair of filters: tasks whose due
date is today, and tasks whose due date is tomorrow, each in input order. -/
lemma classify_tasks_eq_filter (tasks : List Task) (today : ℤ) :
    classify_tasks tasks today =
      (tasks.filter (fun t => decide (t.due = some today)),
       tasks.filter (fun t => decide (t.due = some (today + 1)))) := by
  unfold classify_tasks
  rw [classify_foldl_eq]
  simp

/-- Membership in the today bucket. -/
lemma mem_today_bucket (tasks : List Task) (today : ℤ) (t : Task) :
    t ∈ (classify_tasks tasks today).1 ↔ t ∈ tasks ∧ t.due = some today := by
  rw [classify_tasks_eq_filter]
  simp [List.mem_filter]

/-- Membership in the tomorrow bucket. -/
lemma mem_tomorrow_bucket (tasks : List Task) (today : ℤ) (t : Task) :
    t ∈ (classify_tasks tasks today).2 ↔ t ∈ tasks ∧ t.due = some (today + 1) := by
  rw [classify_tasks_eq_filter]
  simp [List.mem_filter]

/-! ## Claims -/

/-- C1: the spec requires the news fetch and the weather-chain fetch to be
executed concurrently, with combined latency close to the maximum of the
two latencies.  The body of fetch_updates (main.py lines 146-149) awaits
the news fetch to completion before starting the weather fetch, despite
the comment above it announcing concurrent fetching: with positive
latencies the two spans never overlap, the combined latency is the sum of
the two latencies, and that sum strictly exceeds the maximum. -/
theorem fetch_updates_sequential (n w : ℕ) (hn : 0 < n) (hw : 0 < w) :
    ¬ (fetch_updates_schedule n w).1.overlapsWith (fetch_updates_schedule n w).2 ∧
    fetch_updates_latency n w = n + w ∧
    max n w < fetch_updates_latency n w := by
  refine ⟨?_, rfl, ?_⟩
  · rintro ⟨h1, h2⟩
    simp only [fetch_updates_schedule] at h1 h2
    omega
  · simp only [fetch_updates_latency, fetch_updates_schedule]
    omega

/-- Witness for C1 at news latency 1 and weather latency 1. -/
theorem fetch_updates_sequential_witness :
    ¬ (fetch_updates_schedule 1 1).1.overlapsWith (fetch_updates_schedule 1 1).2 ∧
    fetch_updates_latency 1 1 = 1 + 1 ∧
    max 1 1 < fetch_updates_latency 1 1 :=
  fetch_updates_sequential 1 1 (by decide) (by decide)

/-- C2: when the primary weather provider answers with status 200 and a
well-formed payload, the chain returns the primary normalized result and
never invokes the secondary provider; and in every run each provider is
attempted at most once. -/
theorem weather_primary_success_skips_secondary (secondary : WeatherbitResponse)
    (location : WeatherApiLocation) (current : WeatherApiCurrent) :
    (fetch_weather_async (.ok 200 (some (location, current))) secondary).result =
      .report ⟨"WeatherAPI.com", ⟨location.name, location.country⟩,
        ⟨current.temp_c, current.condition.text, current.humidity,
          current.wind_kph, current.feelslike_c, current.last_updated⟩⟩ ∧
    (fetch_weather_async (.ok 200 (some (location, current))) secondary).secondaryCalls = 0 ∧
    (∀ p s, (fetch_weather_async p s).primaryCalls ≤ 1 ∧
      (fetch_weather_async p s).secondaryCalls ≤ 1) := by
  refine ⟨rfl, rfl, ?_⟩
  intro p s
  unfold fetch_weather_async
  cases fetch_weather_from_weatherapi p with
  | some r => simp
  | none =>
    cases fetch_weather_from_weatherbit s with
    | some r => simp
    | none => simp

/-- C3: when both weather providers fail in any source-visible way, the
chain returns the explicit unavailable dictionary carrying its reason
message (it is a total function, so no exception reaches the caller), and
the assembled digest still carries the news content and the task buckets,
which do not depend on the weather responses at all. -/
theorem weather_both_fail_isolated (newsResp : NewsResponse)
    (tasksResp : TasksResponse) (primary : WeatherApiResponse)
    (secondary : WeatherbitResponse) (today : ℤ)
    (hp : primaryFailure primary) (hs : secondaryFailure secondary) :
    (fetch_weather_async primary secondary).result =
      .unavailable "Weather information is unavailable from all sources." ∧
    (buildDigest tasksResp newsResp primary secondary today).weather =
      .unavailable "Weather information is unavailable from all sources." ∧
    (∀ p s, (buildDigest tasksResp newsResp p s today).newsContent
        = fetch_news_async newsResp ∧
      (buildDigest tasksResp newsResp p s today).tasksToday
        = (classify_tasks (get_tasks tasksResp) today).1 ∧
      (buildDigest tasksResp newsResp p s today).tasksTomorrow
        = (classify_tasks (get_tasks tasksResp) today).2) := by
  have h1 := primaryFailure_none primary hp
  have h2 := secondaryFailure_none secondary hs
  have hres : fetch_weather_async primary secondary =
      ⟨.unavailable "Weather information is unavailable from all sources.", 1, 1⟩ := by
    unfold fetch_weather_async
    rw [h1, h2]
  exact ⟨by rw [hres], by simp [buildDigest, hres], fun p s => ⟨rfl, rfl, rfl⟩⟩

/-- Witness for C3: both providers raise transport errors. -/
theorem weather_both_fail_isolated_witness :
    (fetch_weather_async .transportError .transportError).result =
      .unavailable "Weather information is unavailable from all sources." :=
  (weather_both_fail_isolated .noData (.ok []) .transportError .transportError 0
    trivial trivial).1

/-- C4: when the primary provider fails and the secondary returns status
200 with a nonempty data array, the chain returns the secondary normalized
record: sourceName Weatherbit, the secondary location fields, and the wind
speed received in m/s converted to km/h by multiplying with 3.6. -/
theorem weather_fallback_uses_secondary (primary : WeatherApiResponse)
    (hp : primaryFailure primary) (d : WeatherbitData) (rest : List WeatherbitData) :
    (fetch_weather_async primary (.ok 200 (some (d :: rest)))).result =
      .report ⟨"Weatherbit", ⟨d.city_name, d.country_code⟩,
        ⟨d.temp, d.weather.description, d.rh, d.wind_spd * 3.6,
          d.app_temp, d.ob_time⟩⟩ := by
  have h1 := primaryFailure_none primary hp
  unfold fetch_weather_async
  rw [h1]
  rfl

/-- Witness for C4: primary transport error, secondary success with wind
speed 5 m/s normalized to 18 km/h. -/
theorem weather_fallback_uses_secondary_witness :
    (fetch_weather_async .transportError
        (.ok 200 (some [⟨"Chennai", "IN", 30, ⟨"Clear"⟩, 50, 5, 31, "t0"⟩]))).result =
      .report ⟨"Weatherbit", ⟨"Chennai", "IN"⟩, ⟨30, "Clear", 50, 5 * 3.6, 31, "t0"⟩⟩ :=
  weather_fallback_uses_secondary .transportError trivial
    ⟨"Chennai", "IN", 30, ⟨"Clear"⟩, 50, 5, 31, "t0"⟩ []

/-- C5: the send_email classification puts each task in at most one bucket;
a task due today lands exactly in the today bucket, a task due tomorrow
exactly in the tomorrow bucket, tasks that are past due, due strictly after
tomorrow (including the day-after-tomorrow boundary) or without a due date
land in neither; and the four-task example behaves as described. -/
theorem classify_tasks_spec (tasks : List Task) (today : ℤ) :
    (∀ t, t ∈ (classify_tasks tasks today).1 ∧ t ∈ (classify_tasks tasks today).2 → False) ∧
    (∀ t, t ∈ tasks → t.due = some today →
      t ∈ (classify_tasks tasks today).1 ∧ t ∉ (classify_tasks tasks today).2) ∧
    (∀ t, t ∈ tasks → t.due = some (today + 1) →
      t ∈ (classify_tasks tasks today).2 ∧ t ∉ (classify_tasks tasks today).1) ∧
    (∀ t d, t.due = some d → d < today →
      t ∉ (classify_tasks tasks today).1 ∧ t ∉ (classify_tasks tasks today).2) ∧
    (∀ t d, t.due = some d → today + 1 < d →
      t ∉ (classify_tasks tasks today).1 ∧ t ∉ (classify_tasks tasks today).2) ∧
    (∀ t, t.due = none →
      t ∉ (classify_tasks tasks today).1 ∧ t ∉ (classify_tasks tasks today).2) ∧
    classify_tasks [⟨"A", some today⟩, ⟨"B", some (today + 1)⟩,
        ⟨"C", some (today - 1)⟩, ⟨"D", none⟩] today
      = ([⟨"A", some today⟩], [⟨"B", some (today + 1)⟩]) := by
  refine ⟨?_, ?_, ?_, ?_, ?_, ?_, ?_⟩
  · rintro t ⟨h1, h2⟩
    rw [mem_today_bucket] at h1
    rw [mem_tomorrow_bucket] at h2
    obtain ⟨-, e1⟩ := h1
    obtain ⟨-, e2⟩ := h2
    rw [e1] at e2
    injection e2 with e
    omega
  · intro t ht hdue
    refine ⟨(mem_today_bucket tasks today t).mpr ⟨ht, hdue⟩, ?_⟩
    rw [mem_tomorrow_bucket]
    rintro ⟨-, e⟩
    rw [hdue] at e
    injection e with e
    omega
  · intro t ht hdue
    refine ⟨(mem_tomorrow_bucket tasks today t).mpr ⟨ht, hdue⟩, ?_⟩
    rw [mem_today_bucket]
    rintro ⟨-, e⟩
    rw [hdue] at e
    injection e with e
    omega
  · intro t d hdue hlt
    constructor
    · rw [mem_today_bucket]
      rintro ⟨-, e⟩
      rw [hdue] at e
      injection e with e
      omega
    · rw [mem_tomorrow_bucket]
      rintro ⟨-, e⟩
      rw [hdue] at e
      injection e with e
      omega
  · intro t d hdue hgt
    constructor
    · rw [mem_today_bucket]
      rintro ⟨-, e⟩
      rw [hdue] at e
      injection e with e
      omega
    · rw [mem_tomorrow_bucket]
      rintro ⟨-, e⟩
      rw [hdue] at e
      injection e with e
      omega
  · intro t hdue
    constructor
    · rw [mem_today_bucket]
      rintro ⟨-, e⟩
      rw [hdue] at e
      exact Option.noConfusion e
    · rw [mem_tomorrow_bucket]
      rintro ⟨-, e⟩
      rw [hdue] at e
      exact Option.noConfusion e
  · have e1 : today + 1 ≠ today := by omega
    have e2 : today - 1 ≠ today := by omega
    have e3 : today ≠ today + 1 := by omega
    have e4 : today - 1 ≠ today + 1 := by omega
    rw [classify_tasks_eq_filter]
    simp [List.filter_cons, e1, e2, e3, e4]

/-- Witness for C5 at a concrete date and task list. -/
theorem classify_tasks_spec_witness :
    ((⟨"A", some 0⟩ : Task) ∈ (classify_tasks [⟨"A", some 0⟩, ⟨"B", some 1⟩] 0).1 ∧
      (⟨"A", some 0⟩ : Task) ∉ (classify_tasks [⟨"A", some 0⟩, ⟨"B", some 1⟩] 0).2) ∧
    ((⟨"C", some (-1)⟩ : Task) ∉ (classify_tasks [⟨"C", some (-1)⟩] 0).1 ∧
      (⟨"C", some (-1)⟩ : Task) ∉ (classify_tasks [⟨"C", some (-1)⟩] 0).2) :=
  ⟨(classify_tasks_spec [⟨"A", some 0⟩, ⟨"B", some 1⟩] 0).2.1 ⟨"A", some 0⟩
      (by simp) rfl,
    (classify_tasks_spec [⟨"C", some (-1)⟩] 0).2.2.2.1 ⟨"C", some (-1)⟩ (-1)
      rfl (by decide)⟩

/-- C6 counterexample: for a news record whose url field is missing, the
fetch substitutes the string No URL, not the documented hash sign; the
hash sign therefore never reaches the rendered article for lines produced
by the fetch. -/
theorem news_url_default_counterexample :
    newsItemLine ⟨some "T", some "D", none⟩ = "Title: T\nDescription: D\nURL: No URL" ∧
    parse_url (newsItemLine ⟨some "T", some "D", none⟩) = "No URL" ∧
    parse_url (newsItemLine ⟨some "T", some "D", none⟩) ≠ "#" := by
  decide

/-- Merging two adjacent string chunks inside a right-associated append
chain. -/
lemma append_chunk (a b c x : String) (h : a ++ b = c) :
    a ++ (b ++ x) = c ++ x := by
  rw [← String.append_assoc, h]

/-- A list headed by the pattern passes the initial-segment test. -/
lemma leadsList_append (pat rest : List Char) :
    leadsList pat (pat ++ rest) = true := by
  induction pat with
  | nil => rfl
  | cons a as ih => simp [leadsList, ih]

/-- Containment holds whenever the pattern is an initial segment. -/
lemma containsSubList_of_leads (pat s : List Char)
    (h : leadsList pat s = true) : containsSubList pat s = true := by
  cases s with
  | nil => exact h
  | cons c rest => simp [containsSubList, h]

/-- Containment is preserved by consing a character in front. -/
lemma containsSubList_cons_of (pat : List Char) (c : Char) (s : List Char)
    (h : containsSubList pat s = true) :
    containsSubList pat (c :: s) = true := by
  simp [containsSubList, h]

/-- Containment in the right part gives containment in an append. -/
lemma containsSubList_append_right (pat xs ys : List Char)
    (h : containsSubList pat ys = true) :
    containsSubList pat (xs ++ ys) = true := by
  induction xs with
  | nil => simpa using h
  | cons c cs ih => simp [containsSubList, ih]

/-- Every article line produced by the fetch contains the URL marker,
whatever the record fields are. -/
lemma newsItemLine_contains_url_marker (item : NewsItem) :
    containsSubList "URL: ".toList (newsItemLine item).toList = true := by
  have hx : (newsItemLine item).toList =
      ("Title: ".toList ++ (item.title.getD "No title").toList ++
        "\nDescription: ".toList ++ (item.description.getD "No description").toList) ++
      ("\nURL: ".toList ++ (item.url.getD "No URL").toList) := by
    simp [newsItemLine, String.toList, String.data_append, List.append_assoc]
  rw [hx]
  apply containsSubList_append_right
  rw [show ("\nURL: ").toList = '\n' :: ("URL: ").toList from rfl, List.cons_append]
  exact containsSubList_cons_of _ _ _
    (containsSubList_of_leads _ _ (leadsList_append _ _))

/-- C6 amended: each missing optional field is substituted independently
with its dict.get default by the fetch (main.py line 42): No title for a
missing title, No description for a missing description, and No URL (not
the hash sign) for a missing url; every fetch-produced line contains the
URL marker, and the hash-sign default of the send_email re-parsing
applies only to a line with no URL marker at all. -/
theorem news_missing_field_defaults (item : NewsItem) :
    (item.title = none →
      newsItemLine item = "Title: No title\nDescription: " ++
        (item.description.getD "No description" ++
          ("\nURL: " ++ item.url.getD "No URL"))) ∧
    (item.description = none →
      newsItemLine item = "Title: " ++ (item.title.getD "No title" ++
        ("\nDescription: No description\nURL: " ++ item.url.getD "No URL"))) ∧
    (item.url = none →
      newsItemLine item = "Title: " ++ item.title.getD "No title" ++
        "\nDescription: " ++ item.description.getD "No description" ++
        "\nURL: No URL") ∧
    containsSubList "URL: ".toList (newsItemLine item).toList = true ∧
    (∀ s : String, containsSubList "URL: ".toList s.toList = false →
      parse_url s = "#") := by
  refine ⟨?_, ?_, ?_, newsItemLine_contains_url_marker item, ?_⟩
  · intro ht
    unfold newsItemLine
    rw [ht]
    simp only [Option.getD_none, String.append_assoc]
    rw [append_chunk "Title: " "No title" "Title: No title" _ (by decide)]
    rw [append_chunk "Title: No title" "\nDescription: "
      "Title: No title\nDescription: " _ (by decide)]
  · intro hd
    unfold newsItemLine
    rw [hd]
    simp only [Option.getD_none, String.append_assoc]
    rw [append_chunk "\nDescription: " "No description"
      "\nDescription: No description" _ (by decide)]
    rw [append_chunk "\nDescription: No description" "\nURL: "
      "\nDescription: No description\nURL: " _ (by decide)]
  · intro hu
    unfold newsItemLine
    rw [hu]
    simp only [Option.getD_none, String.append_assoc]
    rw [show ("\nURL: " : String) ++ "No URL" = "\nURL: No URL" from by decide]
  · intro s h
    unfold parse_url
    rw [h]
    rfl

/-- Witness for the amended C6: one record missing only its title, one
missing only its url. -/
theorem news_missing_field_defaults_witness :
    newsItemLine ⟨none, some "D", some "U"⟩ =
      "Title: No title\nDescription: " ++ ("D" ++ ("\nURL: " ++ "U")) ∧
    newsItemLine ⟨some "T", some "D", none⟩ =
      "Title: " ++ "T" ++ "\nDescription: " ++ "D" ++ "\nURL: No URL" :=
  ⟨(news_missing_field_defaults ⟨none, some "D", some "U"⟩).1 rfl,
    (news_missing_field_defaults ⟨some "T", some "D", none⟩).2.2.1 rfl⟩

/-- C7 counterexample: when the provider data array has four records, the
fetch produces four article lines, exceeding the configured limit 3: the
limit is only a request parameter and nothing truncates client-side. -/
theorem news_articles_exceed_limit_counterexample :
    (newsArticles (.ok [⟨some "a", some "b", some "c"⟩, ⟨some "d", some "e", some "f"⟩,
        ⟨some "g", some "h", some "i"⟩, ⟨some "j", some "k", some "l"⟩])).length = 4 ∧
    ¬ ((newsArticles (.ok [⟨some "a", some "b", some "c"⟩, ⟨some "d", some "e", some "f"⟩,
        ⟨some "g", some "h", some "i"⟩, ⟨some "j", some "k", some "l"⟩])).length
      ≤ news_limit) := by
  decide

/-- C7 amended: the fetch asks the provider for at most news_limit records
but produces exactly one article line per record the provider actually
returns, with no client-side cap; every produced line is a nonempty
string (never a null entry). -/
theorem news_articles_one_per_record (resp : NewsResponse) :
    (∀ data, resp = .ok data → (newsArticles resp).length = data.length) ∧
    (∀ a ∈ newsArticles resp, 0 < a.length) := by
  constructor
  · rintro data rfl
    simp [newsArticles]
  · intro a ha
    cases resp with
    | ok data =>
      simp only [newsArticles, List.mem_map] at ha
      obtain ⟨item, -, rfl⟩ := ha
      have h7 : ("Title: " : String).length = 7 := rfl
      unfold newsItemLine
      rw [String.length_append, String.length_append, String.length_append,
        String.length_append, String.length_append]
      omega
    | noData => simp [newsArticles] at ha
    | fetchError => simp [newsArticles] at ha

/-- Witness for the amended C7 at a one-record response. -/
theorem news_articles_one_per_record_witness :
    (newsArticles (.ok [⟨none, none, none⟩])).length = 1 ∧
    0 < (newsItemLine ⟨none, none, none⟩).length :=
  ⟨(news_articles_one_per_record (.ok [⟨none, none, none⟩])).1
      [⟨none, none, none⟩] rfl,
    (news_articles_one_per_record (.ok [⟨none, none, none⟩])).2
      (newsItemLine ⟨none, none, none⟩) (by decide)⟩

/-- C8 counterexample: the get_tasks variant of app.py does not return an
empty sequence on a provider error, it returns the fixed nonempty message
string instead. -/
theorem app_get_tasks_sentinel_counterexample :
    app_get_tasks (.error "network failure") = "Could not fetch tasks." ∧
    app_get_tasks (.error "network failure") ≠ "" := by
  decide

/-- C8 amended: the main.py get_tasks returns the empty list on any
provider error and the full normalized list on success (total, never a
partial result); the older app.py variant returns a sentinel message
string rather than a sequence on error. -/
theorem get_tasks_absorbs_errors (resp : TasksResponse) :
    (∀ msg, resp = .error msg →
      get_tasks resp = [] ∧ app_get_tasks resp = "Could not fetch tasks.") ∧
    (∀ ts, resp = .ok ts → get_tasks resp = ts) := by
  constructor
  · rintro msg rfl
    exact ⟨rfl, rfl⟩
  · rintro ts rfl
    rfl

/-- Witness for the amended C8 at a concrete provider error. -/
theorem get_tasks_absorbs_errors_witness :
    get_tasks (.error "auth failure") = [] ∧
    app_get_tasks (.error "auth failure") = "Could not fetch tasks." :=
  (get_tasks_absorbs_errors (.error "auth failure")).1 "auth failure" rfl

/-- C9 counterexample: with every configuration option absent, the run
still starts with the task fetch (a network call) and never emits a
configuration abort, so missing configuration is not surfaced before
network activity. -/
theorem main_missing_config_no_abort_counterexample :
    (main_steps ⟨none, none, none, none, none, none⟩ .transportError).head?
      = some RunStep.taskFetch ∧
    RunStep.configAbort ∉ main_steps ⟨none, none, none, none, none, none⟩ .transportError := by
  decide

/-- C9 amended: main performs no configuration validation at all: for
every configuration, present or absent, the run proceeds directly to the
task fetch, never emits a configuration abort, and still reaches the
email send step; absent options surface only mid-run as provider
failures. -/
theorem main_steps_no_validation (cfg : Config) (primary : WeatherApiResponse) :
    RunStep.configAbort ∉ main_steps cfg primary ∧
    (main_steps cfg primary).head? = some RunStep.taskFetch ∧
    RunStep.emailSend ∈ main_steps cfg primary := by
  rcases hfp : fetch_weather_from_weatherapi primary with _ | r
  · simp [main_steps, hfp]
  · simp [main_steps, hfp]

/-- C10: whenever no task is due exactly tomorrow the tomorrow bucket is
empty, the html_template variable is never bound (its assignment sits
inside the tomorrow branch at main.py lines 369-380), the format call at
line 505 raises an unbound-local error caught by the generic handler, and
send_email returns the unexpected-error status: no email is sent and the
success string is never returned, whatever the SMTP collaborator would
have done. -/
theorem send_email_empty_tomorrow_bucket_fails (news : String)
    (tasks : List Task) (today : ℤ) (smtp : SmtpOutcome)
    (h : ∀ t ∈ tasks, t.due ≠ some (today + 1)) :
    send_email news tasks today smtp =
      "An unexpected error occurred: local variable html_template referenced before assignment" ∧
    send_email news tasks today smtp ≠ "Email sent successfully." := by
  have hb : (classify_tasks tasks today).2 = [] := by
    rw [List.eq_nil_iff_forall_not_mem]
    intro a
    rw [mem_tomorrow_bucket]
    rintro ⟨ha, e⟩
    exact h a ha e
  have h1 : send_email news tasks today smtp =
      "An unexpected error occurred: local variable html_template referenced before assignment" := by
    simp only [send_email]
    rw [hb]
    rfl
  refine ⟨h1, ?_⟩
  rw [h1]
  decide

/-- Witness for C10: a valid task due today, valid news, a healthy SMTP
collaborator, and still the unexpected-error status. -/
theorem send_email_empty_tomorrow_bucket_fails_witness :
    send_email "No news found." [⟨"A", some 0⟩] 0 .sent =
      "An unexpected error occurred: local variable html_template referenced before assignment" :=
  (send_email_empty_tomorrow_bucket_fails "No news found." [⟨"A", some 0⟩] 0 .sent
    (by decide)).1

end DailyDigest
